import Mathlib

/-!
Verification of the memory-block geometry in `src/block.rs` (ralloc).

A `Block` is a contiguous memory span described by a byte `size` and a start
address `ptr`.  Addresses are modelled as natural numbers; the source relies
on the invariant that a block's end is bounded by the address space (its
comments state that the additions and offsets cannot overflow), so plain
`Nat` arithmetic is a faithful model of the pointer arithmetic.

Mutating Rust methods are modelled by explicit state passing:
`merge_right(&mut self, &mut other) -> Result<(),()>` becomes a function
returning `(success?, new self, new other)`, and
`align(&mut self, align) -> Option<(Block, Block)>` becomes a function
returning `(new self, optional pair)`.  The `assert!` in `split` is modelled
by an `Option` result: `none` is the fatal panic.
-/

/-- A contiguous memory block (`struct Block` in `src/block.rs`): a byte
count `size` and the start address `ptr`. -/
structure Block where
  size : Nat
  ptr  : Nat
deriving DecidableEq

namespace Block

/-- `Block::empty(ptr)`: an empty block starting at `p`. -/
def empty (p : Nat) : Block :=
  ⟨0, p⟩

/-- `Block::is_empty`: `self.size == 0`. -/
def is_empty (self : Block) : Bool :=
  self.size == 0

/-- `Block::aligned_to`: `*self.ptr as usize % align == 0`. -/
def aligned_to (self : Block) (a : Nat) : Bool :=
  self.ptr % a == 0

/-- `Block::left_to`: `self.size + *self.ptr as usize == *to.ptr as usize`. -/
def left_to (self other : Block) : Bool :=
  self.size + self.ptr == other.ptr

/-- `Block::pop`: replace `self` in place by `Block::empty(self.ptr)` and
return the old value.  Modelled as `(new state, returned old value)`. -/
def pop (self : Block) : Block × Block :=
  (empty self.ptr, self)

/-- `Block::merge_right(&mut self, block: &mut Block) -> Result<(), ()>`,
modelled as `(success?, new self, new block)`.  If `block` is empty the call
succeeds with no mutation; else if `self` is left-adjacent to `block`,
`self.size += block.pop().size` (so `block` becomes empty at its address);
otherwise the call fails with no mutation. -/
def merge_right (self other : Block) : Bool × Block × Block :=
  if other.is_empty then
    (true, self, other)
  else if self.left_to other then
    (true, ⟨self.size + (other.pop).2.size, self.ptr⟩, (other.pop).1)
  else
    (false, self, other)

/-- `Block::split(self, pos)`: `assert!(pos <= self.size)`, then return the
pair `(⟨pos, ptr⟩, ⟨size - pos, ptr + pos⟩)`.  The fatal assertion is
modelled by `none`. -/
def split (self : Block) (pos : Nat) : Option (Block × Block) :=
  if pos ≤ self.size then
    some (⟨pos, self.ptr⟩, ⟨self.size - pos, self.ptr + pos⟩)
  else
    none

/-- `Block::align(&mut self, align) -> Option<(Block, Block)>`, modelled as
`(new self, optional pair)`.  `aligner = (align - ptr % align) % align`; if
`aligner < size` the receiver is popped and the pair
`(⟨aligner, ptr⟩, ⟨size - aligner, ptr + aligner⟩)` is returned, else the
call fails leaving the receiver untouched.  (For `align = 0` the Rust code
panics on division by zero; the spec calls a zero target a precondition
violation, so every theorem about `align` assumes a positive target.) -/
def align (self : Block) (a : Nat) : Block × Option (Block × Block) :=
  let aligner := (a - self.ptr % a) % a
  if aligner < self.size then
    (empty self.ptr,
      some (⟨aligner, self.ptr⟩, ⟨self.size - aligner, self.ptr + aligner⟩))
  else
    (self, none)

/-- `impl PartialEq for Block`: equality of the start addresses only. -/
def beq (self other : Block) : Bool :=
  self.ptr == other.ptr

/-- `impl Ord for Block`, specialised to strict less-than: comparison of the
start addresses. -/
def lt (self other : Block) : Bool :=
  self.ptr < other.ptr

/-- The aligner really aligns: adding `(a - p % a) % a` to `p` lands on a
multiple of `a` (for a positive alignment `a`). -/
theorem aligner_aligns (p a : Nat) (ha : 0 < a) :
    (p + (a - p % a) % a) % a = 0 := by
  rcases Nat.eq_zero_or_pos (p % a) with h | h
  · rw [h, Nat.sub_zero, Nat.mod_self, Nat.add_zero, h]
  · have hlt : p % a < a := Nat.mod_lt _ ha
    have h1 : (a - p % a) % a = a - p % a := Nat.mod_eq_of_lt (by omega)
    rw [h1]
    calc (p + (a - p % a)) % a
        = (a * (p / a) + p % a + (a - p % a)) % a := by rw [Nat.div_add_mod]
      _ = (a * (p / a) + a) % a := by
          rw [Nat.add_assoc, Nat.add_sub_cancel' (Nat.le_of_lt hlt)]
      _ = a % a := Nat.mul_add_mod _ _ _
      _ = 0 := Nat.mod_self a

end Block

/-- C1, counterexample: for `B = ⟨5, 100⟩` and `pos = 0` we have
`pos < B.size` and `B.size > 0`, `split` returns `(L, R)`, yet `L < R` in
address order is false (both parts start at address 100). -/
theorem split_lt_counterexample :
    Block.split ⟨5, 100⟩ 0 = some (⟨0, 100⟩, ⟨5, 100⟩) ∧
    (0 : Nat) < 5 ∧
    Block.lt ⟨0, 100⟩ ⟨5, 100⟩ = false := by
  decide

/-- C1 (amended): for `pos ≤ B.size`, `B.split pos` returns `(L, R)` with
`L.size + R.size = B.size`, `L.ptr = B.ptr`, `R.ptr = B.ptr + pos`; and when
`0 < pos`, `L` is strictly less than `R` in address order. -/
theorem split_spec (B : Block) (pos : Nat) (h : pos ≤ B.size) :
    ∃ L R, B.split pos = some (L, R) ∧
      L.size + R.size = B.size ∧
      L.ptr = B.ptr ∧
      R.ptr = B.ptr + pos ∧
      (0 < pos → Block.lt L R = true) := by
  refine ⟨⟨pos, B.ptr⟩, ⟨B.size - pos, B.ptr + pos⟩, ?_, ?_, rfl, rfl, ?_⟩
  · simp [Block.split, h]
  · simp
    omega
  · intro hp
    simp [Block.lt]
    omega

/-- C1 witness: `split_spec` at `B = ⟨5, 100⟩`, `pos = 2`. -/
theorem split_spec_witness :
    ∃ L R, Block.split ⟨5, 100⟩ 2 = some (L, R) ∧
      L.size + R.size = 5 ∧
      L.ptr = 100 ∧
      R.ptr = 100 + 2 ∧
      (0 < 2 → Block.lt L R = true) :=
  split_spec ⟨5, 100⟩ 2 (by decide)

/-- C2: splitting `B` at any `pos ≤ B.size` into `(L, R)` and then calling
`L.merge_right(R)` succeeds; afterwards the new `L` has size `B.size` and
the new `R` is empty. -/
theorem merge_right_undoes_split (B : Block) (pos : Nat) (h : pos ≤ B.size)
    (L R : Block) (hs : B.split pos = some (L, R)) :
    (Block.merge_right L R).1 = true ∧
    (Block.merge_right L R).2.1.size = B.size ∧
    (Block.merge_right L R).2.2.is_empty = true := by
  rw [Block.split, if_pos h] at hs
  obtain ⟨hL, hR⟩ := Prod.mk.injEq .. ▸ Option.some.injEq .. ▸ hs
  subst hL
  subst hR
  by_cases hz : B.size - pos = 0
  · have hps : pos = B.size := by omega
    simp [Block.merge_right, Block.is_empty, hz, hps]
  · have hadj : Block.left_to ⟨pos, B.ptr⟩ ⟨B.size - pos, B.ptr + pos⟩ = true := by
      simp [Block.left_to]
      omega
    simp [Block.merge_right, Block.is_empty, hz, hadj, Block.pop, Block.empty]
    omega

/-- C2 witness: `merge_right_undoes_split` at `B = ⟨5, 100⟩`, `pos = 2`,
`L = ⟨2, 100⟩`, `R = ⟨3, 102⟩`. -/
theorem merge_right_undoes_split_witness :
    (Block.merge_right ⟨2, 100⟩ ⟨3, 102⟩).1 = true ∧
    (Block.merge_right ⟨2, 100⟩ ⟨3, 102⟩).2.1.size = 5 ∧
    (Block.merge_right ⟨2, 100⟩ ⟨3, 102⟩).2.2.is_empty = true :=
  merge_right_undoes_split ⟨5, 100⟩ 2 (by decide) ⟨2, 100⟩ ⟨3, 102⟩ (by decide)

/-- C3, counterexample: the empty block `⟨0, 8⟩` is aligned to `4`
(`8 % 4 = 0`), yet `align 4` fails (returns the receiver untouched and no
pair) because the bound check `aligner < size` is strict. -/
theorem align_aligned_counterexample :
    Block.aligned_to ⟨0, 8⟩ 4 = true ∧
    Block.align ⟨0, 8⟩ 4 = (⟨0, 8⟩, none) := by
  decide

/-- C3 (amended): for a positive alignment target `a` and a block `B` with
`0 < B.size` whose start address is a multiple of `a`, `B.align a` succeeds
and returns an empty leading part at `B.ptr` together with a trailing part
identical to `B` in both address and size. -/
theorem align_already_aligned (B : Block) (a : Nat) (ha : 0 < a)
    (hal : B.ptr % a = 0) (hs : 0 < B.size) :
    (B.align a).2 = some (⟨0, B.ptr⟩, ⟨B.size, B.ptr⟩) := by
  have haligner : (a - B.ptr % a) % a = 0 := by
    rw [hal, Nat.sub_zero, Nat.mod_self]
  simp [Block.align, haligner, hs]

/-- C3 witness: `align_already_aligned` at `B = ⟨5, 8⟩`, `a = 4`. -/
theorem align_already_aligned_witness :
    (Block.align ⟨5, 8⟩ 4).2 = some (⟨0, 8⟩, ⟨5, 8⟩) :=
  align_already_aligned ⟨5, 8⟩ 4 (by decide) (by decide) (by decide)

/-- C4: merging with an empty block succeeds, regardless of adjacency. -/
theorem merge_right_empty_succeeds (A B : Block) (h : B.is_empty = true) :
    (Block.merge_right A B).1 = true := by
  simp [Block.merge_right, h]

/-- C4 witness: `merge_right_empty_succeeds` on the non-adjacent pair
`A = ⟨5, 100⟩`, `B = ⟨0, 999⟩`. -/
theorem merge_right_empty_succeeds_witness :
    (Block.merge_right ⟨5, 100⟩ ⟨0, 999⟩).1 = true :=
  merge_right_empty_succeeds ⟨5, 100⟩ ⟨0, 999⟩ (by decide)

/-- C5: merging with a non-empty block that is not exactly to the right of
`A` (`A.size + A.ptr ≠ B.ptr`) fails, and neither operand is mutated. -/
theorem merge_right_nonadjacent_fails (A B : Block) (hne : B.size ≠ 0)
    (hadj : A.size + A.ptr ≠ B.ptr) :
    Block.merge_right A B = (false, A, B) := by
  simp [Block.merge_right, Block.is_empty, Block.left_to, hne, hadj]

/-- C5 witness: `merge_right_nonadjacent_fails` at `A = ⟨5, 100⟩`,
`B = ⟨3, 200⟩`. -/
theorem merge_right_nonadjacent_fails_witness :
    Block.merge_right ⟨5, 100⟩ ⟨3, 200⟩ = (false, ⟨5, 100⟩, ⟨3, 200⟩) :=
  merge_right_nonadjacent_fails ⟨5, 100⟩ ⟨3, 200⟩ (by decide) (by decide)

/-- C6: when the aligner `(a - B.ptr % a) % a` is at least `B.size`,
`B.align a` fails and the receiver keeps its size and start address. -/
theorem align_oob_fails (B : Block) (a : Nat) (ha : 0 < a)
    (h : (a - B.ptr % a) % a ≥ B.size) :
    B.align a = (B, none) := by
  rw [Block.align]
  rw [if_neg (by omega)]

/-- C6 witness: `align_oob_fails` at `B = ⟨2, 101⟩`, `a = 4` (the aligner is
`3 ≥ 2`). -/
theorem align_oob_fails_witness :
    Block.align ⟨2, 101⟩ 4 = (⟨2, 101⟩, none) :=
  align_oob_fails ⟨2, 101⟩ 4 (by decide) (by decide)

/-- C7: `split` hits the fatal out-of-bounds assertion (returns no pair)
exactly when the position exceeds the block's size. -/
theorem split_oob_iff (B : Block) (pos : Nat) :
    B.split pos = none ↔ B.size < pos := by
  by_cases h : pos ≤ B.size <;> simp [Block.split, h] <;> omega

/-- C8: block equality is determined by the start address alone (blocks with
equal addresses are equal whatever their sizes), and a block strictly less
than another in address order is never equal to it. -/
theorem eq_iff_same_address (A B : Block) :
    (A.ptr = B.ptr → Block.beq A B = true) ∧
    (Block.lt A B = true → Block.beq A B = false) := by
  constructor
  · intro h
    simp [Block.beq, h]
  · intro h
    simp [Block.lt] at h
    simp [Block.beq]
    omega

/-- C8 witness: `eq_iff_same_address` on `⟨3, 5⟩`, `⟨7, 5⟩` (same address,
different sizes: equal) and on `⟨2, 5⟩`, `⟨2, 9⟩` (strictly less: unequal). -/
theorem eq_iff_same_address_witness :
    Block.beq ⟨3, 5⟩ ⟨7, 5⟩ = true ∧ Block.beq ⟨2, 5⟩ ⟨2, 9⟩ = false :=
  ⟨(eq_iff_same_address ⟨3, 5⟩ ⟨7, 5⟩).1 rfl,
   (eq_iff_same_address ⟨2, 5⟩ ⟨2, 9⟩).2 (by decide)⟩

/-- C9: whenever `B.align a` succeeds with pair `(L, R)` (for a positive
target `a`), the receiver is left as an empty block at `B`'s original start
address, `L` starts at `B`'s original start address,
`L.size + R.size = B.size`, and `R`'s start address is a multiple of `a`. -/
theorem align_success_spec (B : Block) (a : Nat) (ha : 0 < a) (L R : Block)
    (h : (B.align a).2 = some (L, R)) :
    (B.align a).1 = Block.empty B.ptr ∧
    L.ptr = B.ptr ∧
    L.size + R.size = B.size ∧
    R.ptr % a = 0 := by
  by_cases hc : (a - B.ptr % a) % a < B.size
  · rw [Block.align] at h
    simp only [hc, if_pos] at h
    obtain ⟨hL, hR⟩ := Prod.mk.injEq .. ▸ Option.some.injEq .. ▸ h
    subst hL
    subst hR
    refine ⟨?_, rfl, ?_, ?_⟩
    · rw [Block.align]
      simp only [hc, if_pos]
    · simp
      omega
    · exact Block.aligner_aligns B.ptr a ha
  · rw [Block.align] at h
    simp [hc] at h

/-- C9 witness: `align_success_spec` at `B = ⟨5, 102⟩`, `a = 4`, where the
pair is `(⟨2, 102⟩, ⟨3, 104⟩)`. -/
theorem align_success_spec_witness :
    (Block.align ⟨5, 102⟩ 4).1 = Block.empty 102 ∧
    Block.ptr ⟨2, 102⟩ = Block.ptr ⟨5, 102⟩ ∧
    Block.size ⟨2, 102⟩ + Block.size ⟨3, 104⟩ = Block.size ⟨5, 102⟩ ∧
    Block.ptr ⟨3, 104⟩ % 4 = 0 :=
  align_success_spec ⟨5, 102⟩ 4 (by decide) ⟨2, 102⟩ ⟨3, 104⟩ (by decide)

/-- C10: merging with an empty block leaves both operands entirely
unchanged: `A` keeps its size and address, and `B` is returned as-is (it is
not popped or otherwise modified). -/
theorem merge_right_empty_frame (A B : Block) (h : B.size = 0) :
    Block.merge_right A B = (true, A, B) := by
  simp [Block.merge_right, Block.is_empty, h]

/-- C10 witness: `merge_right_empty_frame` on the non-adjacent pair
`A = ⟨5, 100⟩`, `B = ⟨0, 999⟩`. -/
theorem merge_right_empty_frame_witness :
    Block.merge_right ⟨5, 100⟩ ⟨0, 999⟩ = (true, ⟨5, 100⟩, ⟨0, 999⟩) :=
  merge_right_empty_frame ⟨5, 100⟩ ⟨0, 999⟩ (by decide)
